import Mathlib

/-!
# Verification of the leads-admin-frontend session and data-access layer

Shallow embedding of the client-side session/authorization lifecycle of the
leads-admin-frontend repository:

* `src/lib/api.ts` — the axios client with its request interceptor (bearer
  token attachment) and response interceptor (401/403 refresh-and-retry
  protocol over `localStorage` and `window.location`);
* `src/lib/store/auth.ts` — the zustand auth store (login, logout,
  refreshUser, setUser, setTokens, clearAuth) and its derived selectors;
* `src/components/auth/route-guard.tsx` — the `RouteGuard` component;
* `src/app/dashboard/leads/[id]/page.tsx` — the lead-detail query gating
  (`enabled: !isNaN(parseInt(params.id))`).

JavaScript truthiness on strings (`if (token)`, `refreshToken || null`) is
modelled explicitly: the empty string is falsy.
-/

/-- JS truthiness of a nullable string value (`null`/`undefined`/`""` are falsy). -/
def truthy : Option String → Bool
  | none => false
  | some s => !(s == "")

/-- `charsStartWith pat s`: `pat` occurs at the very start of `s`. -/
def charsStartWith : List Char → List Char → Bool
  | [], _ => true
  | _ :: _, [] => false
  | a :: as, b :: bs => a == b && charsStartWith as bs

/-- `charsContain pat s`: `pat` occurs contiguously somewhere inside `s`. -/
def charsContain : List Char → List Char → Bool
  | pat, [] => pat.isEmpty
  | pat, c :: cs => charsStartWith pat (c :: cs) || charsContain pat cs

/-- `String.prototype.includes`: substring containment. -/
def containsSubstr (s pat : String) : Bool :=
  charsContain pat.toList s.toList

/-- User model from `src/lib/types.ts` (`interface User`). -/
structure User where
  id : Nat
  google_id : String
  email : String
  name : String
  avatar_url : Option String
  role : String
  is_active : Bool
  is_approved : Bool
  is_admin : Bool
  can_manage : Bool
  can_view_full : Bool
  approved_by_id : Option Nat
  approved_at : Option String
  rejected_at : Option String
  last_login_at : Option String
  login_count : Nat
  created_at : String
  updated_at : String
deriving DecidableEq

/-- Token response from `src/lib/types.ts` (`interface TokenResponse`).
`token_type` and `expires_in` are carried but never read by the client code
under verification. -/
structure TokenResponse where
  access_token : String
  refresh_token : Option String
deriving DecidableEq

/-- An HTTP response as seen by the response interceptor: its status and the
`detail` field of the error body (`error.response?.data?.detail || ''`).
A body without a detail field is the empty string. -/
structure HttpResponse where
  status : Nat
  detail : String
deriving DecidableEq

/-- The persisted Token Store: the `access_token` and `refresh_token` keys of
`localStorage`. -/
structure Storage where
  access : Option String
  refresh : Option String
deriving DecidableEq

/-- `localStorage` with both token keys removed. -/
def clearedStorage : Storage := { access := none, refresh := none }

/-- The zustand auth store state from `src/lib/store/auth.ts`
(`interface AuthState`, data fields only). -/
structure AuthState where
  user : Option User
  accessToken : Option String
  refreshToken : Option String
  isAuthenticated : Bool
  isLoading : Bool
  error : Option String
deriving DecidableEq

/-- The initial (empty) session: all fields absent, flags false. -/
def initialAuthState : AuthState :=
  { user := none, accessToken := none, refreshToken := none,
    isAuthenticated := false, isLoading := false, error := none }

/-- 2xx counts as axios success (the response interceptor's success arm). -/
def isSuccessStatus (n : Nat) : Bool := 200 ≤ n && n < 300

/-- The session-invalidity pattern on a 403 body from `src/lib/api.ts`
lines 97-103: `errorMessage.includes(...)` over five fixed substrings. -/
def sessionInvalidMsg (msg : String) : Bool :=
  containsSubstr msg "expired" ||
  containsSubstr msg "invalid" ||
  containsSubstr msg "deactivated" ||
  containsSubstr msg "not active" ||
  containsSubstr msg "pending approval"

/-- A model of the backend as seen through one request: `handle` maps the
`Authorization` header attached to the original request to its response, and
`refresh` is the `POST /auth/refresh` endpoint (`none` = the refresh call
rejects). The refresh call uses bare `axios.post`, so it does not pass
through the interceptors. -/
structure Backend where
  handle : Option String → HttpResponse
  refresh : String → Option TokenResponse

/-- What the caller of `client.request` observes. -/
inductive Outcome where
  | ok (r : HttpResponse)
  | err (r : HttpResponse)
  | outOfFuel
deriving DecidableEq

/-- Result of running one `client.request` (with its interceptor recursion):
the final Token Store, the ordered `Authorization` headers of every attempt of
the original request, the refresh tokens posted to `/auth/refresh`, how many
times `window.location.href = '/login'` was assigned, and the outcome. -/
structure RunResult where
  store : Storage
  requests : List (Option String)
  refreshCalls : List String
  redirects : Nat
  outcome : Outcome
deriving DecidableEq

/-- The request interceptor (`src/lib/api.ts` lines 43-52): if a truthy
access token is in `localStorage`, overwrite the `Authorization` header with
`Bearer <token>`; otherwise leave the header already on the config. -/
def effAuth (st : Storage) (preset : Option String) : Option String :=
  match st.access with
  | some t => if t == "" then preset else some ("Bearer " ++ t)
  | none => preset

/-- The shared refresh-or-redirect block (`src/lib/api.ts` lines 62-89,
repeated verbatim at lines 105-132 for the session-invalid 403 arm):
read the refresh token; if truthy, post it to `/auth/refresh`; on success
persist the new access token, overwrite the original request's header and
re-issue it through the client (`retry`); on refresh failure, or when no
truthy refresh token exists, remove both tokens, assign
`window.location.href = '/login'` once, and reject with the original error. -/
def handleAuthFailure (refreshEndpoint : String → Option TokenResponse)
    (retry : Storage → Option String → RunResult)
    (st : Storage) (auth : Option String) (resp : HttpResponse) : RunResult :=
  match st.refresh with
  | some r =>
    if r == "" then
      { store := clearedStorage, requests := [auth], refreshCalls := [],
        redirects := 1, outcome := .err resp }
    else
      match refreshEndpoint r with
      | some tok =>
        let st' : Storage := { st with access := some tok.access_token }
        let res := retry st' (some ("Bearer " ++ tok.access_token))
        { store := res.store, requests := auth :: res.requests,
          refreshCalls := r :: res.refreshCalls,
          redirects := res.redirects, outcome := res.outcome }
      | none =>
        { store := clearedStorage, requests := [auth], refreshCalls := [r],
          redirects := 1, outcome := .err resp }
  | none =>
    { store := clearedStorage, requests := [auth], refreshCalls := [],
      redirects := 1, outcome := .err resp }

/-- One `client.request` call including the interceptor recursion of
`src/lib/api.ts` (the retry goes back through `client.request`, hence the
fuel: the source has no single-retry guard). The branches mirror the
response interceptor: 2xx resolves; 401 enters the refresh block; a 403
whose detail matches the session-invalidity pattern enters the same block;
anything else rejects with the original error untouched. -/
def runClient (b : Backend) : Nat → Storage → Option String → RunResult
  | 0, st, _ =>
    { store := st, requests := [], refreshCalls := [], redirects := 0,
      outcome := .outOfFuel }
  | fuel + 1, st, preset =>
    let auth := effAuth st preset
    let resp := b.handle auth
    if isSuccessStatus resp.status then
      { store := st, requests := [auth], refreshCalls := [], redirects := 0,
        outcome := .ok resp }
    else if resp.status == 401 then
      handleAuthFailure b.refresh (fun st' p => runClient b fuel st' p) st auth resp
    else if resp.status == 403 && sessionInvalidMsg resp.detail then
      handleAuthFailure b.refresh (fun st' p => runClient b fuel st' p) st auth resp
    else
      { store := st, requests := [auth], refreshCalls := [], redirects := 0,
        outcome := .err resp }

/-- A `client.request` call viewed together with the zustand session store.
`src/lib/api.ts` touches only `localStorage` and `window.location`; it never
imports or writes the auth store, so the session component passes through a
client run unchanged. -/
def runClientSystem (b : Backend) (fuel : Nat) (session : AuthState)
    (st : Storage) : AuthState × RunResult :=
  (session, runClient b fuel st none)

/-- Outcome of the best-effort backend logout call awaited inside `logout()`. -/
inductive BackendOutcome where
  | success
  | error (msg : String)
  | timeout
deriving DecidableEq

/-- `login` from `src/lib/store/auth.ts` (lines 250-281), after the awaited
`authApi.googleLogin` resolves (`.ok (user, token)`) or rejects with the
extracted error message (`.error msg`). On success: both tokens go to
`localStorage` (the refresh token only if truthy) and the session is set
authenticated; on failure the error message is recorded, loading stops and
`isAuthenticated` is set false (the thrown error is re-raised to the view,
not modelled here). -/
def loginStep (result : Except String (User × TokenResponse)) (s : AuthState)
    (ls : Storage) : AuthState × Storage :=
  match result with
  | .ok (user, token) =>
    ({ user := some user, accessToken := some token.access_token,
       refreshToken := token.refresh_token, isAuthenticated := true,
       isLoading := false, error := none },
     { access := some token.access_token,
       refresh := if truthy token.refresh_token then token.refresh_token
                  else ls.refresh })
  | .error msg =>
    ({ s with error := some msg, isLoading := false, isAuthenticated := false },
     ls)

/-- `logout` from `src/lib/store/auth.ts` (lines 283-301): the backend call's
rejection is caught and logged, and the `finally` block unconditionally
removes both `localStorage` tokens and resets the session fields. The last
component is the exception the operation propagates to its caller — `none`
in every case, since the `catch` consumes the backend failure. -/
def logoutStep (o : BackendOutcome) (s : AuthState) (ls : Storage) :
    (AuthState × Storage) × Option String :=
  match o with
  | .success =>
    (({ s with
        user := none, accessToken := none, refreshToken := none,
        isAuthenticated := false, error := none }, clearedStorage), none)
  | .error _ =>
    (({ s with
        user := none, accessToken := none, refreshToken := none,
        isAuthenticated := false, error := none }, clearedStorage), none)
  | .timeout =>
    (({ s with
        user := none, accessToken := none, refreshToken := none,
        isAuthenticated := false, error := none }, clearedStorage), none)

/-- `refreshUser` from `src/lib/store/auth.ts` (lines 303-316), after the
awaited `authApi.getCurrentUser` resolves (`some u`) or rejects (`none`):
returns immediately when the stored access token is falsy; otherwise sets
the fetched user on success, and on failure only stops the loading flag. -/
def refreshUserStep (fetched : Option User) (s : AuthState) : AuthState :=
  if truthy s.accessToken then
    match fetched with
    | some u => { s with user := some u, isLoading := false }
    | none => { s with isLoading := false }
  else s

/-- `setUser` from `src/lib/store/auth.ts` (lines 318-320). -/
def setUserStep (u : User) (s : AuthState) : AuthState :=
  { s with user := some u }

/-- `setTokens` from `src/lib/store/auth.ts` (lines 322-333): persists the
access token, persists the refresh token only if truthy, and sets
`accessToken`, `refreshToken := refreshToken || null`, and
`isAuthenticated := true` — without touching `user`. -/
def setTokensStep (a : String) (r : Option String) (s : AuthState)
    (ls : Storage) : AuthState × Storage :=
  ({ s with
      accessToken := some a,
      refreshToken := if truthy r then r else none,
      isAuthenticated := true },
   { access := some a,
     refresh := if truthy r then r else ls.refresh })

/-- `clearAuth` from `src/lib/store/auth.ts` (lines 335-346). -/
def clearAuthStep (s : AuthState) (ls : Storage) : AuthState × Storage :=
  ({ s with
      user := none, accessToken := none, refreshToken := none,
      isAuthenticated := false, error := none },
   clearedStorage)

/-- One Session Controller operation, each carrying the resolution of the
backend call it awaits (so a run of operations covers every interleaving of
backend outcomes). -/
inductive AuthOp where
  | login (result : Except String (User × TokenResponse))
  | logout (o : BackendOutcome)
  | refreshUser (fetched : Option User)
  | setUser (u : User)
  | setTokens (a : String) (r : Option String)
  | clearAuth

/-- Apply one operation to the session and the persisted Token Store. -/
def applyAuthOp : AuthOp → AuthState × Storage → AuthState × Storage
  | .login res, (s, ls) => loginStep res s ls
  | .logout o, (s, ls) => (logoutStep o s ls).1
  | .refreshUser f, (s, ls) => (refreshUserStep f s, ls)
  | .setUser u, (s, ls) => (setUserStep u s, ls)
  | .setTokens a r, (s, ls) => setTokensStep a r s ls
  | .clearAuth, (s, ls) => clearAuthStep s ls

/-- Run a sequence of Session Controller operations from the empty session
and empty Token Store. -/
def runAuthOps (ops : List AuthOp) : AuthState × Storage :=
  ops.foldl (fun st op => applyAuthOp op st) (initialAuthState, clearedStorage)

/-- Selector `useIsAdmin` from `src/lib/store/auth.ts` line 376:
`state.user?.is_admin || false`. -/
def useIsAdmin (s : AuthState) : Bool :=
  match s.user with
  | some u => u.is_admin
  | none => false

/-- Selector `useCanManage` from `src/lib/store/auth.ts` line 377:
`state.user?.can_manage || false`. -/
def useCanManage (s : AuthState) : Bool :=
  match s.user with
  | some u => u.can_manage
  | none => false

/-- Selector `useCanViewFull` from `src/lib/store/auth.ts` line 378:
`state.user?.can_view_full || false`. -/
def useCanViewFull (s : AuthState) : Bool :=
  match s.user with
  | some u => u.can_view_full
  | none => false

/-- The complete list of top-level names exported by the auth store module
`src/lib/store/auth.ts`. There is no approval selector among them. -/
def authStoreExports : List String :=
  ["useAuthStore", "useAuth", "useUser", "useIsAuthenticated",
   "useIsAdmin", "useCanManage", "useCanViewFull"]

/-- Modelled from the spec: the spec's Session Controller lists a derived
accessor `isApproved` that "reads directly from UserProfile, defaulting to
false when profile is absent". No such selector exists in
`src/lib/store/auth.ts`, so this definition follows the spec's words; it is
used to state the spec-side authorization formula of P4. -/
def specIsApproved (s : AuthState) : Bool :=
  match s.user with
  | some u => u.is_approved
  | none => false

/-- What the `RouteGuard` component returns from its render function. -/
inductive GuardRender where
  | loading
  | blank
  | content
deriving DecidableEq

/-- The render path of `RouteGuard` (`src/components/auth/route-guard.tsx`
lines 56-86): a loading placeholder while `isLoading || !user`; `null` when
unauthenticated or a declared requirement fails on the profile; otherwise
the wrapped children. -/
def routeGuardRender (s : AuthState)
    (requireApproval requireAdmin requireManager : Bool) : GuardRender :=
  if s.isLoading || s.user.isNone then .loading
  else
    match s.user with
    | none => .loading
    | some u =>
      if !s.isAuthenticated then .blank
      else if requireApproval && !u.is_approved then .blank
      else if requireAdmin && !u.is_admin then .blank
      else if requireManager && !u.can_manage then .blank
      else .content

/-- The spec's P4 authorization formula, written from the spec's words:
`isAuthenticated && (!requireApproval || isApproved) && (!requireAdmin ||
isAdmin) && (!requireManager || canManage)`, with the derived accessors
defaulting to false when the profile is absent. -/
def specGuardFormula (s : AuthState)
    (requireApproval requireAdmin requireManager : Bool) : Bool :=
  s.isAuthenticated &&
  (!requireApproval || specIsApproved s) &&
  (!requireAdmin || useIsAdmin s) &&
  (!requireManager || useCanManage s)

/-- The whitespace characters `parseInt` strips from the front of its input. -/
def isJsWhitespace (c : Char) : Bool :=
  c == ' ' || c == '\t' || c == '\n' || c == '\r' || c == '\x0b' || c == '\x0c'

/-- Hexadecimal digit value. -/
def hexVal (c : Char) : Option Nat :=
  if '0' ≤ c ∧ c ≤ '9' then some (c.toNat - '0'.toNat)
  else if 'a' ≤ c ∧ c ≤ 'f' then some (c.toNat - 'a'.toNat + 10)
  else if 'A' ≤ c ∧ c ≤ 'F' then some (c.toNat - 'A'.toNat + 10)
  else none

/-- Decimal digit value. -/
def decVal (c : Char) : Option Nat :=
  if '0' ≤ c ∧ c ≤ '9' then some (c.toNat - '0'.toNat) else none

/-- Longest leading run of digits under the given digit reader. -/
def takeDigits (dv : Char → Option Nat) : List Char → List Nat
  | [] => []
  | c :: cs =>
    match dv c with
    | some d => d :: takeDigits dv cs
    | none => []

/-- Fold a digit list into a number. -/
def digitsToNat (base : Nat) (ds : List Nat) : Nat :=
  ds.foldl (fun acc d => acc * base + d) 0

/-- JavaScript `parseInt(str)` with no radix argument, as used by
`src/app/dashboard/leads/[id]/page.tsx` line 12: strip leading whitespace,
read an optional sign, switch to base 16 after a `0x`/`0X` marker, and parse
the longest leading digit run; `none` models the `NaN` result when no digit
is found. -/
def parseIntJS (s : String) : Option Int :=
  let cs := s.toList.dropWhile isJsWhitespace
  let signAndRest : Int × List Char :=
    match cs with
    | '-' :: rest => (-1, rest)
    | '+' :: rest => (1, rest)
    | rest => (1, rest)
  let baseAndRest : Nat × List Char :=
    match signAndRest.2 with
    | '0' :: 'x' :: rest => (16, rest)
    | '0' :: 'X' :: rest => (16, rest)
    | rest => (10, rest)
  let ds := takeDigits (if baseAndRest.1 == 16 then hexVal else decVal)
    baseAndRest.2
  if ds.isEmpty then none
  else some (signAndRest.1 * (digitsToNat baseAndRest.1 ds : Int))

/-- The lead-detail query gate (`src/app/dashboard/leads/[id]/page.tsx`
lines 18-22): `enabled: !isNaN(leadId)` where
`leadId = parseInt(params.id)`. -/
def leadDetailQueryEnabled (idParam : String) : Bool :=
  (parseIntJS idParam).isSome

/-- The `GET /leads/{id}` calls the lead-detail query issues: react-query
runs `queryFn` (i.e. `leadsApi.getLead(leadId)`) exactly when the query is
enabled, and skips the network entirely when it is disabled. -/
def leadDetailNetworkRequests (idParam : String) : List Int :=
  if leadDetailQueryEnabled idParam then
    match parseIntJS idParam with
    | some n => [n]
    | none => []
  else []

/-- A concrete user profile used in witnesses and counterexamples. -/
def demoUser : User :=
  { id := 1, google_id := "g1", email := "ana@example.com", name := "Ana",
    avatar_url := none, role := "ADMIN", is_active := true,
    is_approved := true, is_admin := true, can_manage := true,
    can_view_full := true, approved_by_id := none, approved_at := none,
    rejected_at := none, last_login_at := none, login_count := 1,
    created_at := "2024-01-01", updated_at := "2024-01-01" }

/-- A session state reachable via `setTokens` alone: authenticated with a
stored access token but no user profile. -/
def authNoUserState : AuthState :=
  { user := none, accessToken := some "tokA", refreshToken := none,
    isAuthenticated := true, isLoading := false, error := none }

/-- A populated, authenticated session used in counterexamples. -/
def demoSession : AuthState :=
  { user := some demoUser, accessToken := some "tokA",
    refreshToken := some "refA", isAuthenticated := true,
    isLoading := false, error := none }

/-- Backend that answers 401 to everything but always grants a fresh access
token on refresh. -/
def always401Backend : Backend :=
  { handle := fun _ => { status := 401, detail := "" },
    refresh := fun _ => some { access_token := "tokB", refresh_token := none } }

/-- Backend that answers 401 to everything and rejects every refresh call. -/
def refreshRejectBackend : Backend :=
  { handle := fun _ => { status := 401, detail := "" },
    refresh := fun _ => none }

/-- Backend for the happy 401 path: 401 until the request carries the
refreshed token, then 200. -/
def demoBackend401 : Backend :=
  { handle := fun a =>
      if a == some "Bearer tokB" then { status := 200, detail := "" }
      else { status := 401, detail := "" },
    refresh := fun r =>
      if r == "refA" then some { access_token := "tokB", refresh_token := none }
      else none }

/-- Backend for the session-invalid 403 path of P7: `403 session expired`
until the request carries the refreshed token, then 200. -/
def demoBackend403 : Backend :=
  { handle := fun a =>
      if a == some "Bearer tokB" then { status := 200, detail := "" }
      else { status := 403, detail := "session expired" },
    refresh := fun r =>
      if r == "refA" then some { access_token := "tokB", refresh_token := none }
      else none }

/-- Backend that answers a plain permission 403 to everything. -/
def plain403Backend : Backend :=
  { handle := fun _ => { status := 403, detail := "Not enough permissions" },
    refresh := fun r =>
      if r == "refA" then some { access_token := "tokB", refresh_token := none }
      else none }

/-- Backend whose refresh endpoint rotates the refresh token: the refresh
response carries `refresh_token = "refB"`. -/
def rotatingRefreshBackend : Backend :=
  { handle := fun a =>
      if a == some "Bearer tokB" then { status := 200, detail := "" }
      else { status := 401, detail := "" },
    refresh := fun r =>
      if r == "refA" then
        some { access_token := "tokB", refresh_token := some "refB" }
      else none }

/-- Unfolding of one interceptor pass at positive fuel. -/
theorem runClient_succ (b : Backend) (fuel : Nat) (st : Storage)
    (preset : Option String) :
    runClient b (fuel + 1) st preset =
      (if isSuccessStatus (b.handle (effAuth st preset)).status then
        { store := st, requests := [effAuth st preset], refreshCalls := [],
          redirects := 0, outcome := .ok (b.handle (effAuth st preset)) }
      else if (b.handle (effAuth st preset)).status == 401 then
        handleAuthFailure b.refresh (fun st' p => runClient b fuel st' p) st
          (effAuth st preset) (b.handle (effAuth st preset))
      else if (b.handle (effAuth st preset)).status == 403 &&
          sessionInvalidMsg (b.handle (effAuth st preset)).detail then
        handleAuthFailure b.refresh (fun st' p => runClient b fuel st' p) st
          (effAuth st preset) (b.handle (effAuth st preset))
      else
        { store := st, requests := [effAuth st preset], refreshCalls := [],
          redirects := 0, outcome := .err (b.handle (effAuth st preset)) }) :=
  rfl

/-- A pass whose response is neither 401 nor a session-invalid 403 resolves
or rejects immediately, leaving the Token Store untouched. -/
theorem runClient_terminal (b : Backend) (fuel : Nat) (st : Storage)
    (preset : Option String) (resp : HttpResponse)
    (h1 : b.handle (effAuth st preset) = resp)
    (h8 : (resp.status == 401) = false)
    (h9 : (resp.status == 403 && sessionInvalidMsg resp.detail) = false) :
    runClient b (fuel + 1) st preset =
      { store := st, requests := [effAuth st preset], refreshCalls := [],
        redirects := 0,
        outcome := if isSuccessStatus resp.status then Outcome.ok resp
                   else Outcome.err resp } := by
  rw [runClient_succ, h1]
  by_cases hs : isSuccessStatus resp.status
  · simp [hs]
  · simp [hs, h8, h9]

/-- A 401 pass enters the shared refresh-or-redirect block. -/
theorem runClient_401 (b : Backend) (fuel : Nat) (st : Storage)
    (preset : Option String) (resp : HttpResponse)
    (h1 : b.handle (effAuth st preset) = resp)
    (h2 : resp.status = 401) :
    runClient b (fuel + 1) st preset =
      handleAuthFailure b.refresh (fun st' p => runClient b fuel st' p) st
        (effAuth st preset) resp := by
  rw [runClient_succ, h1, h2]
  rfl

/-- A 403 pass with a session-invalid detail enters the same block. -/
theorem runClient_403 (b : Backend) (fuel : Nat) (st : Storage)
    (preset : Option String) (resp : HttpResponse)
    (h1 : b.handle (effAuth st preset) = resp)
    (h2 : resp.status = 403)
    (h3 : sessionInvalidMsg resp.detail = true) :
    runClient b (fuel + 1) st preset =
      handleAuthFailure b.refresh (fun st' p => runClient b fuel st' p) st
        (effAuth st preset) resp := by
  rw [runClient_succ, h1, h2, h3]
  rfl

/-- The refresh-or-redirect block, successful-refresh branch. -/
theorem handleAuthFailure_refreshOk (re : String → Option TokenResponse)
    (retry : Storage → Option String → RunResult) (st : Storage)
    (auth : Option String) (resp : HttpResponse) (r : String)
    (tok : TokenResponse)
    (h3 : st.refresh = some r) (h4 : (r == "") = false)
    (h5 : re r = some tok) :
    handleAuthFailure re retry st auth resp =
      { store := (retry { st with access := some tok.access_token }
          (some ("Bearer " ++ tok.access_token))).store,
        requests := auth :: (retry { st with access := some tok.access_token }
          (some ("Bearer " ++ tok.access_token))).requests,
        refreshCalls := r :: (retry { st with access := some tok.access_token }
          (some ("Bearer " ++ tok.access_token))).refreshCalls,
        redirects := (retry { st with access := some tok.access_token }
          (some ("Bearer " ++ tok.access_token))).redirects,
        outcome := (retry { st with access := some tok.access_token }
          (some ("Bearer " ++ tok.access_token))).outcome } := by
  simp [handleAuthFailure, h3, h4, h5]

/-- The refresh-or-redirect block, refresh-rejected branch. -/
theorem handleAuthFailure_refreshFail (re : String → Option TokenResponse)
    (retry : Storage → Option String → RunResult) (st : Storage)
    (auth : Option String) (resp : HttpResponse) (r : String)
    (h3 : st.refresh = some r) (h4 : (r == "") = false)
    (h5 : re r = none) :
    handleAuthFailure re retry st auth resp =
      { store := clearedStorage, requests := [auth], refreshCalls := [r],
        redirects := 1, outcome := .err resp } := by
  simp [handleAuthFailure, h3, h4, h5]

/-- The refresh-or-redirect block, no-refresh-token branch. -/
theorem handleAuthFailure_noToken (re : String → Option TokenResponse)
    (retry : Storage → Option String → RunResult) (st : Storage)
    (auth : Option String) (resp : HttpResponse)
    (h3 : st.refresh = none) :
    handleAuthFailure re retry st auth resp =
      { store := clearedStorage, requests := [auth], refreshCalls := [],
        redirects := 1, outcome := .err resp } := by
  simp [handleAuthFailure, h3]

/-- C1 (amended): when a request fails with 401, a truthy refresh token is
stored, and the refresh call succeeds, the client persists the new access
token, retries the original request once with `Authorization: Bearer <new>`,
and — provided the retried request does not itself fail with another
recoverable auth error — returns the retry's result to the caller, who never
observes the intermediate 401. (The source has no single-retry guard, so the
"exactly once" of the original claim holds only under that proviso; see the
counterexample.) -/
theorem refresh_retry_on_401 (b : Backend) (st : Storage) (fuel : Nat)
    (r : String) (tok : TokenResponse) (resp1 resp2 : HttpResponse)
    (h1 : b.handle (effAuth st none) = resp1)
    (h2 : resp1.status = 401)
    (h3 : st.refresh = some r)
    (h4 : (r == "") = false)
    (h5 : b.refresh r = some tok)
    (h6 : (tok.access_token == "") = false)
    (h7 : b.handle (some ("Bearer " ++ tok.access_token)) = resp2)
    (h8 : (resp2.status == 401) = false)
    (h9 : (resp2.status == 403 && sessionInvalidMsg resp2.detail) = false) :
    runClient b (fuel + 2) st none =
      { store := { access := some tok.access_token, refresh := some r },
        requests := [effAuth st none, some ("Bearer " ++ tok.access_token)],
        refreshCalls := [r], redirects := 0,
        outcome := if isSuccessStatus resp2.status then Outcome.ok resp2
                   else Outcome.err resp2 } ∧
    (runClient b (fuel + 2) st none).outcome ≠ Outcome.err resp1 := by
  have hin : runClient b (fuel + 1) { st with access := some tok.access_token }
      (some ("Bearer " ++ tok.access_token)) =
      { store := { st with access := some tok.access_token },
        requests := [some ("Bearer " ++ tok.access_token)], refreshCalls := [],
        redirects := 0,
        outcome := if isSuccessStatus resp2.status then Outcome.ok resp2
                   else Outcome.err resp2 } := by
    have hea : effAuth { st with access := some tok.access_token }
        (some ("Bearer " ++ tok.access_token)) =
        some ("Bearer " ++ tok.access_token) := by
      simp [effAuth, h6]
    have := runClient_terminal b fuel { st with access := some tok.access_token }
      (some ("Bearer " ++ tok.access_token)) resp2 (by rw [hea]; exact h7) h8 h9
    rw [this, hea]
  have hfull : runClient b (fuel + 2) st none =
      { store := { access := some tok.access_token, refresh := some r },
        requests := [effAuth st none, some ("Bearer " ++ tok.access_token)],
        refreshCalls := [r], redirects := 0,
        outcome := if isSuccessStatus resp2.status then Outcome.ok resp2
                   else Outcome.err resp2 } := by
    rw [show fuel + 2 = (fuel + 1) + 1 from rfl,
      runClient_401 b (fuel + 1) st none resp1 h1 h2,
      handleAuthFailure_refreshOk b.refresh
        (fun st' p => runClient b (fuel + 1) st' p) st (effAuth st none) resp1
        r tok h3 h4 h5]
    rw [h3] at hin
    rw [h3, hin]
  refine ⟨hfull, ?_⟩
  rw [hfull]
  cases hs : isSuccessStatus resp2.status <;> simp [hs]
  intro heq
  rw [heq, h2] at h8
  exact absurd h8 (by decide)

/-- C1 counterexample: a refresh token is stored, every refresh call
succeeds, yet the interceptor retries the original request more than once
(three attempts within fuel 3, one refresh call before each retry), because
the retried request re-enters the interceptor without any single-retry
guard. -/
theorem retry_not_guarded_counterexample :
    (runClient always401Backend 3
        { access := some "tokA", refresh := some "refA" } none).requests =
      [some "Bearer tokA", some "Bearer tokB", some "Bearer tokB"] ∧
    (runClient always401Backend 3
        { access := some "tokA", refresh := some "refA" } none).refreshCalls =
      ["refA", "refA", "refA"] := by
  constructor <;> rfl

/-- C1 witness: the amended theorem applied to the happy-path backend. -/
theorem refresh_retry_on_401_witness :
    runClient demoBackend401 2 { access := some "tokA", refresh := some "refA" }
        none =
      { store := { access := some "tokB", refresh := some "refA" },
        requests := [some "Bearer tokA", some "Bearer tokB"],
        refreshCalls := ["refA"], redirects := 0,
        outcome := Outcome.ok { status := 200, detail := "" } } := by
  have h := refresh_retry_on_401 demoBackend401
    { access := some "tokA", refresh := some "refA" } 0 "refA"
    { access_token := "tokB", refresh_token := none }
    { status := 401, detail := "" } { status := 200, detail := "" }
    rfl rfl rfl rfl rfl rfl rfl rfl rfl
  rw [h.1]
  rfl

/-- C2 (amended): when the refresh protocol fails on a 401 — the refresh
endpoint rejects the stored refresh token, or no truthy refresh token is
stored — the interceptor removes both persisted tokens from the Token
Store, assigns the login redirect exactly once, and rejects the original
call with its original error; the zustand Session itself (`isAuthenticated`,
`user`, its token copies) is not modified by the interceptor. -/
theorem refresh_failure_clears_tokens_only (b : Backend) (session : AuthState)
    (st : Storage) (fuel : Nat) (resp : HttpResponse)
    (h1 : b.handle (effAuth st none) = resp)
    (h2 : resp.status = 401) :
    (∀ r : String, st.refresh = some r → (r == "") = false →
      b.refresh r = none →
      runClientSystem b (fuel + 1) session st =
        (session, {
          store := clearedStorage, requests := [effAuth st none],
          refreshCalls := [r], redirects := 1, outcome := Outcome.err resp })) ∧
    (st.refresh = none →
      runClientSystem b (fuel + 1) session st =
        (session, {
          store := clearedStorage, requests := [effAuth st none],
          refreshCalls := [], redirects := 1, outcome := Outcome.err resp })) := by
  constructor
  · intro r h3 h4 h5
    unfold runClientSystem
    rw [runClient_401 b fuel st none resp h1 h2,
      handleAuthFailure_refreshFail b.refresh
        (fun st' p => runClient b fuel st' p) st (effAuth st none) resp r h3 h4 h5]
  · intro h3
    unfold runClientSystem
    rw [runClient_401 b fuel st none resp h1 h2,
      handleAuthFailure_noToken b.refresh
        (fun st' p => runClient b fuel st' p) st (effAuth st none) resp h3]

/-- C2 counterexample: a stored refresh token is rejected by the backend;
the run removes the persisted tokens and redirects once, but the Session is
NOT cleared — `isAuthenticated` stays true and the profile stays present —
contradicting the claim that the entire Session is cleared. -/
theorem session_not_cleared_on_refresh_failure :
    (runClientSystem refreshRejectBackend 1 demoSession
        { access := some "tokA", refresh := some "refA" }).1.isAuthenticated
      = true ∧
    (runClientSystem refreshRejectBackend 1 demoSession
        { access := some "tokA", refresh := some "refA" }).1.user
      = some demoUser ∧
    (runClientSystem refreshRejectBackend 1 demoSession
        { access := some "tokA", refresh := some "refA" }).2.store
      = clearedStorage ∧
    (runClientSystem refreshRejectBackend 1 demoSession
        { access := some "tokA", refresh := some "refA" }).2.redirects = 1 := by
  exact ⟨rfl, rfl, rfl, rfl⟩

/-- C2 witness: the amended theorem applied to the rejecting backend. -/
theorem refresh_failure_clears_tokens_only_witness :
    runClientSystem refreshRejectBackend 1 demoSession
        { access := some "tokA", refresh := some "refA" } =
      (demoSession, {
          store := clearedStorage, requests := [some "Bearer tokA"],
          refreshCalls := ["refA"], redirects := 1,
          outcome := Outcome.err { status := 401, detail := "" } }) := by
  have h := (refresh_failure_clears_tokens_only refreshRejectBackend demoSession
    { access := some "tokA", refresh := some "refA" } 0
    { status := 401, detail := "" } rfl rfl).1 "refA" rfl rfl rfl
  rw [h]
  rfl

/-- Every Session Controller operation preserves the property
"authenticated implies an access token is stored". -/
theorem applyAuthOp_preserves_token (op : AuthOp) (s : AuthState) (ls : Storage)
    (h : s.isAuthenticated = true → s.accessToken.isSome = true) :
    (applyAuthOp op (s, ls)).1.isAuthenticated = true →
    (applyAuthOp op (s, ls)).1.accessToken.isSome = true := by
  cases op with
  | login res =>
    cases res with
    | ok pr => intro _; simp [applyAuthOp, loginStep]
    | error msg => intro ha; simp [applyAuthOp, loginStep] at ha
  | logout o =>
    intro ha
    cases o <;> simp [applyAuthOp, logoutStep] at ha
  | refreshUser f =>
    intro ha
    cases f <;> by_cases ht : truthy s.accessToken <;>
      simp [applyAuthOp, refreshUserStep, ht] at ha ⊢ <;> exact h ha
  | setUser u =>
    intro ha
    simp [applyAuthOp, setUserStep] at ha ⊢
    exact h ha
  | setTokens a r => intro _; simp [applyAuthOp, setTokensStep]
  | clearAuth =>
    intro ha
    simp [applyAuthOp, clearAuthStep] at ha

/-- The invariant holds along any fold of operations from an invariant-
satisfying start. -/
theorem authOps_fold_token (ops : List AuthOp) (p : AuthState × Storage)
    (h : p.1.isAuthenticated = true → p.1.accessToken.isSome = true) :
    (ops.foldl (fun st op => applyAuthOp op st) p).1.isAuthenticated = true →
    (ops.foldl (fun st op => applyAuthOp op st) p).1.accessToken.isSome
      = true := by
  induction ops generalizing p with
  | nil => exact h
  | cons op rest ih =>
    simp only [List.foldl_cons]
    exact ih (applyAuthOp op p) (by
      obtain ⟨s, ls⟩ := p
      exact applyAuthOp_preserves_token op s ls h)

/-- C3 (amended): in every session state reachable from the empty session by
Session Controller operations, `isAuthenticated = true` implies an access
token is present. (The user-profile half of the claimed invariant is false:
see the counterexample — `setTokens` authenticates without a profile.) -/
theorem session_auth_implies_access_token (ops : List AuthOp)
    (h : (runAuthOps ops).1.isAuthenticated = true) :
    (runAuthOps ops).1.accessToken.isSome = true := by
  have := authOps_fold_token ops (initialAuthState, clearedStorage)
    (by intro hx; simp [initialAuthState] at hx)
  exact this h

/-- C3 counterexample: from the empty session, the single operation
`setTokens "tokA"` reaches a state with `isAuthenticated = true` but
`user = none`, falsifying the claimed invariant that authentication implies
a present user profile. -/
theorem setTokens_breaks_user_invariant :
    (runAuthOps [AuthOp.setTokens "tokA" none]).1.isAuthenticated = true ∧
    (runAuthOps [AuthOp.setTokens "tokA" none]).1.user = none := by
  exact ⟨rfl, rfl⟩

/-- C3 witness: the amended invariant evaluated on the `setTokens` run. -/
theorem session_auth_implies_access_token_witness :
    (runAuthOps [AuthOp.setTokens "tokA" none]).1.accessToken.isSome = true :=
  session_auth_implies_access_token [AuthOp.setTokens "tokA" none] rfl

/-- C4 (amended): once loading has finished AND a user profile is present,
the Route Guard renders the protected content if and only if the spec's P4
formula holds: `isAuthenticated && (!requireApproval || isApproved) &&
(!requireAdmin || isAdmin) && (!requireManager || canManage)`. (Without the
profile-present condition the claim is false: see the counterexample.) -/
theorem routeGuard_renders_iff (s : AuthState) (u : User) (ra rad rm : Bool)
    (hl : s.isLoading = false) (hu : s.user = some u) :
    (routeGuardRender s ra rad rm = GuardRender.content ↔
      specGuardFormula s ra rad rm = true) := by
  obtain ⟨su, sat, srt, sauth, sload, serr⟩ := s
  simp only at hl hu
  subst hl
  subst hu
  obtain ⟨ui, ug, ue, un, uav, uro, uact, uap, uad, ucm, ucv, uab, uaa, ura,
    ull, ulc, uca, uua⟩ := u
  cases sauth <;> cases ra <;> cases rad <;> cases rm <;>
    cases uap <;> cases uad <;> cases ucm <;>
    simp [routeGuardRender, specGuardFormula, specIsApproved, useIsAdmin,
      useCanManage]

/-- C4 counterexample: in the reachable state with `isAuthenticated = true`
and no profile (loading finished), the spec formula is satisfied with no
requirements declared, yet the guard renders its loading placeholder rather
than the protected content — the claimed "if and only if" fails. -/
theorem routeGuard_needs_profile :
    authNoUserState.isLoading = false ∧
    specGuardFormula authNoUserState false false false = true ∧
    routeGuardRender authNoUserState false false false ≠ GuardRender.content ∧
    routeGuardRender authNoUserState false false false = GuardRender.loading := by
  refine ⟨rfl, rfl, by decide, rfl⟩

/-- C4 witness: the amended equivalence evaluated on an authenticated,
fully-capable profile with every requirement declared. -/
theorem routeGuard_renders_iff_witness :
    routeGuardRender demoSession true true true = GuardRender.content :=
  (routeGuard_renders_iff demoSession demoUser true true true rfl rfl).mpr
    (by decide)

/-- C5: for a response with status 403 — if its detail matches the
session-invalidity pattern ("expired", "invalid", "deactivated",
"not active", "pending approval"), the client enters the refresh protocol:
with a stored refresh token and a successful refresh it posts the stored
token to the refresh endpoint and retries the request once with the new
bearer token, returning the retry's result; if the detail does not match,
the 403 is surfaced to the caller unmodified, with no refresh call, no
retry, no redirect, and no change to the Token Store. -/
theorem forbidden_403_dispatch (b : Backend) (st : Storage) (fuel : Nat)
    (resp1 : HttpResponse)
    (h1 : b.handle (effAuth st none) = resp1)
    (h2 : resp1.status = 403) :
    (sessionInvalidMsg resp1.detail = true →
      ∀ (r : String) (tok : TokenResponse) (resp2 : HttpResponse),
        st.refresh = some r → (r == "") = false → b.refresh r = some tok →
        (tok.access_token == "") = false →
        b.handle (some ("Bearer " ++ tok.access_token)) = resp2 →
        (resp2.status == 401) = false →
        (resp2.status == 403 && sessionInvalidMsg resp2.detail) = false →
        runClient b (fuel + 2) st none =
          { store := { access := some tok.access_token, refresh := some r },
            requests := [effAuth st none, some ("Bearer " ++ tok.access_token)],
            refreshCalls := [r], redirects := 0,
            outcome := if isSuccessStatus resp2.status then Outcome.ok resp2
                       else Outcome.err resp2 }) ∧
    (sessionInvalidMsg resp1.detail = false →
      runClient b (fuel + 2) st none =
        { store := st, requests := [effAuth st none], refreshCalls := [],
          redirects := 0, outcome := Outcome.err resp1 }) := by
  constructor
  · intro hm r tok resp2 h3 h4 h5 h6 h7 h8 h9
    have hin : runClient b (fuel + 1)
        { st with access := some tok.access_token }
        (some ("Bearer " ++ tok.access_token)) =
        { store := { st with access := some tok.access_token },
          requests := [some ("Bearer " ++ tok.access_token)],
          refreshCalls := [], redirects := 0,
          outcome := if isSuccessStatus resp2.status then Outcome.ok resp2
                     else Outcome.err resp2 } := by
      have hea : effAuth { st with access := some tok.access_token }
          (some ("Bearer " ++ tok.access_token)) =
          some ("Bearer " ++ tok.access_token) := by
        simp [effAuth, h6]
      have := runClient_terminal b fuel
        { st with access := some tok.access_token }
        (some ("Bearer " ++ tok.access_token)) resp2
        (by rw [hea]; exact h7) h8 h9
      rw [this, hea]
    rw [show fuel + 2 = (fuel + 1) + 1 from rfl,
      runClient_403 b (fuel + 1) st none resp1 h1 h2 hm,
      handleAuthFailure_refreshOk b.refresh
        (fun st' p => runClient b (fuel + 1) st' p) st (effAuth st none) resp1
        r tok h3 h4 h5]
    rw [h3] at hin
    rw [h3, hin]
  · intro hm
    have h8 : (resp1.status == 401) = false := by rw [h2]; rfl
    have h9 : (resp1.status == 403 && sessionInvalidMsg resp1.detail)
        = false := by rw [hm]; simp
    have := runClient_terminal b (fuel + 1) st none resp1 h1 h8 h9
    rw [show fuel + 2 = (fuel + 1) + 1 from rfl, this, h2]
    rfl

/-- C5 witness: the theorem applied to the P7 scenario backend (403 with
detail "session expired", stored refresh token "refA", refreshed access
token "tokB") and, for the negative arm, to a plain permission 403. -/
theorem forbidden_403_dispatch_witness :
    runClient demoBackend403 2 { access := some "tokA", refresh := some "refA" }
        none =
      { store := { access := some "tokB", refresh := some "refA" },
        requests := [some "Bearer tokA", some "Bearer tokB"],
        refreshCalls := ["refA"], redirects := 0,
        outcome := Outcome.ok { status := 200, detail := "" } } ∧
    runClient plain403Backend 2 { access := some "tokA", refresh := some "refA" }
        none =
      { store := { access := some "tokA", refresh := some "refA" },
        requests := [some "Bearer tokA"], refreshCalls := [], redirects := 0,
        outcome := Outcome.err
          { status := 403, detail := "Not enough permissions" } } := by
  constructor
  · have h := (forbidden_403_dispatch demoBackend403
      { access := some "tokA", refresh := some "refA" } 0
      { status := 403, detail := "session expired" } rfl rfl).1 (by decide)
      "refA" { access_token := "tokB", refresh_token := none }
      { status := 200, detail := "" } rfl rfl rfl rfl rfl rfl rfl
    rw [h]
    rfl
  · have h := (forbidden_403_dispatch plain403Backend
      { access := some "tokA", refresh := some "refA" } 0
      { status := 403, detail := "Not enough permissions" } rfl rfl).2
      (by decide)
    rw [h]
    rfl

/-- C6: for every outcome of the backend logout call (success, error, or
timeout) and every prior session and Token Store, `logout` removes both
persisted tokens, resets the session to its unauthenticated shape, behaves
identically regardless of the backend outcome, and propagates no failure to
its caller. -/
theorem logout_always_clears_locally (o : BackendOutcome) (s : AuthState)
    (ls : Storage) :
    ((logoutStep o s ls).1.1.user = none ∧
     (logoutStep o s ls).1.1.accessToken = none ∧
     (logoutStep o s ls).1.1.refreshToken = none ∧
     (logoutStep o s ls).1.1.isAuthenticated = false) ∧
    (logoutStep o s ls).1.2 = clearedStorage ∧
    (logoutStep o s ls).2 = none ∧
    (∀ o2 : BackendOutcome, logoutStep o2 s ls = logoutStep o s ls) := by
  cases o <;>
    exact ⟨⟨rfl, rfl, rfl, rfl⟩, rfl, rfl, fun o2 => by cases o2 <;> rfl⟩

/-- C7: `refreshUser` is a no-op when no access token is present, and when
the profile re-fetch fails, every session field other than the loading flag
— profile, both tokens, `isAuthenticated`, and the error — keeps its prior
value. -/
theorem refreshUser_noop_and_frame (fetched : Option User) (s : AuthState) :
    (s.accessToken = none → refreshUserStep fetched s = s) ∧
    ((refreshUserStep none s).user = s.user ∧
     (refreshUserStep none s).accessToken = s.accessToken ∧
     (refreshUserStep none s).refreshToken = s.refreshToken ∧
     (refreshUserStep none s).isAuthenticated = s.isAuthenticated ∧
     (refreshUserStep none s).error = s.error) := by
  constructor
  · intro h
    simp [refreshUserStep, truthy, h]
  · by_cases ht : truthy s.accessToken <;> simp [refreshUserStep, ht]

/-- C7 witness: the no-op arm evaluated on the empty session (no access
token) and the frame arm on a failed re-fetch over a populated session. -/
theorem refreshUser_noop_and_frame_witness :
    refreshUserStep (some demoUser) initialAuthState = initialAuthState ∧
    (refreshUserStep none demoSession).user = some demoUser :=
  ⟨(refreshUser_noop_and_frame (some demoUser) initialAuthState).1 rfl,
   (refreshUser_noop_and_frame none demoSession).2.1⟩

/-- C8: the lead-detail query is disabled — and issues no
`GET /leads/{id}` call — exactly when the route id parses to NaN, and is
enabled, targeting the parsed id, for every id that parses to a number. -/
theorem leadDetail_query_gate (idParam : String) :
    (parseIntJS idParam = none →
      leadDetailQueryEnabled idParam = false ∧
      leadDetailNetworkRequests idParam = []) ∧
    (∀ n : Int, parseIntJS idParam = some n →
      leadDetailQueryEnabled idParam = true ∧
      leadDetailNetworkRequests idParam = [n]) := by
  constructor
  · intro h
    simp [leadDetailQueryEnabled, leadDetailNetworkRequests, h]
  · intro n h
    simp [leadDetailQueryEnabled, leadDetailNetworkRequests, h]

/-- C8 witness: a non-numeric id issues no request; a numeric id issues the
request for the parsed number. -/
theorem leadDetail_query_gate_witness :
    (leadDetailQueryEnabled "abc" = false ∧
     leadDetailNetworkRequests "abc" = []) ∧
    (leadDetailQueryEnabled "42" = true ∧
     leadDetailNetworkRequests "42" = [42]) :=
  ⟨(leadDetail_query_gate "abc").1 (by decide),
   (leadDetail_query_gate "42").2 42 (by decide)⟩

/-- C9 counterexample: the auth store module exports no approval accessor —
neither `useIsApproved` nor `isApproved` is among its exported names — so
the claim's fourth derived accessor does not exist in the code. -/
theorem no_isApproved_selector :
    ¬ ("useIsApproved" ∈ authStoreExports ∨ "isApproved" ∈ authStoreExports) := by
  decide

/-- C9 (amended): each derived capability accessor that the auth store
actually exports — `useIsAdmin`, `useCanManage`, `useCanViewFull` — returns
exactly the corresponding profile field when a profile is present, and false
for every session state in which the profile is absent. -/
theorem capability_selectors_read_profile (s : AuthState) (u : User) :
    (s.user = some u →
      useIsAdmin s = u.is_admin ∧ useCanManage s = u.can_manage ∧
      useCanViewFull s = u.can_view_full) ∧
    (s.user = none →
      useIsAdmin s = false ∧ useCanManage s = false ∧
      useCanViewFull s = false) := by
  constructor <;> intro h <;> simp [useIsAdmin, useCanManage, useCanViewFull, h]

/-- C9 witness: the selectors evaluated on a populated and an empty session. -/
theorem capability_selectors_witness :
    useIsAdmin demoSession = demoUser.is_admin ∧
    useIsAdmin initialAuthState = false :=
  ⟨((capability_selectors_read_profile demoSession demoUser).1 rfl).1,
   ((capability_selectors_read_profile initialAuthState demoUser).2 rfl).1⟩

/-- C10: in both refresh branches (401, and session-invalid 403), a
successful refresh persists only the new access token: the stored refresh
token is unchanged after the run even when the refresh response carries a
rotated `refresh_token`, so the client keeps holding the old one. -/
theorem refresh_keeps_old_refresh_token (b : Backend) (st : Storage)
    (fuel : Nat) (r fresh : String) (tok : TokenResponse)
    (resp1 resp2 : HttpResponse)
    (h1 : b.handle (effAuth st none) = resp1)
    (h2 : resp1.status = 401 ∨
      (resp1.status = 403 ∧ sessionInvalidMsg resp1.detail = true))
    (h3 : st.refresh = some r)
    (h4 : (r == "") = false)
    (h5 : b.refresh r = some tok)
    (hrot : tok.refresh_token = some fresh)
    (h6 : (tok.access_token == "") = false)
    (h7 : b.handle (some ("Bearer " ++ tok.access_token)) = resp2)
    (h8 : (resp2.status == 401) = false)
    (h9 : (resp2.status == 403 && sessionInvalidMsg resp2.detail) = false) :
    (runClient b (fuel + 2) st none).store.access = some tok.access_token ∧
    (runClient b (fuel + 2) st none).store.refresh = some r := by
  have hin : runClient b (fuel + 1)
      { st with access := some tok.access_token }
      (some ("Bearer " ++ tok.access_token)) =
      { store := { st with access := some tok.access_token },
        requests := [some ("Bearer " ++ tok.access_token)],
        refreshCalls := [], redirects := 0,
        outcome := if isSuccessStatus resp2.status then Outcome.ok resp2
                   else Outcome.err resp2 } := by
    have hea : effAuth { st with access := some tok.access_token }
        (some ("Bearer " ++ tok.access_token)) =
        some ("Bearer " ++ tok.access_token) := by
      simp [effAuth, h6]
    have := runClient_terminal b fuel
      { st with access := some tok.access_token }
      (some ("Bearer " ++ tok.access_token)) resp2
      (by rw [hea]; exact h7) h8 h9
    rw [this, hea]
  have hstep : runClient b ((fuel + 1) + 1) st none =
      handleAuthFailure b.refresh
        (fun st' p => runClient b (fuel + 1) st' p) st (effAuth st none)
        resp1 := by
    rcases h2 with h2 | ⟨h2a, h2b⟩
    · exact runClient_401 b (fuel + 1) st none resp1 h1 h2
    · exact runClient_403 b (fuel + 1) st none resp1 h1 h2a h2b
  rw [show fuel + 2 = (fuel + 1) + 1 from rfl, hstep,
    handleAuthFailure_refreshOk b.refresh
      (fun st' p => runClient b (fuel + 1) st' p) st (effAuth st none) resp1
      r tok h3 h4 h5]
  rw [h3] at hin
  rw [h3, hin]
  exact ⟨rfl, rfl⟩

/-- C10 witness: a backend that rotates the refresh token to "refB"; the
client persists the new access token but still stores the old "refA". -/
theorem refresh_keeps_old_refresh_token_witness :
    (runClient rotatingRefreshBackend 2
        { access := some "tokA", refresh := some "refA" } none).store.access
      = some "tokB" ∧
    (runClient rotatingRefreshBackend 2
        { access := some "tokA", refresh := some "refA" } none).store.refresh
      = some "refA" :=
  refresh_keeps_old_refresh_token rotatingRefreshBackend
    { access := some "tokA", refresh := some "refA" } 0 "refA" "refB"
    { access_token := "tokB", refresh_token := some "refB" }
    { status := 401, detail := "" } { status := 200, detail := "" }
    rfl (Or.inl rfl) rfl rfl rfl rfl rfl rfl rfl rfl
